import Mathlib

/-!
Verification of the budget-classification rule engine of this repository.

The embedded functions follow src/Financial_AI_Agent_LLM.py:
- analyze_budget (lines 68-124): classifies a triple
  (income, fixed_expenses, saving_goal) into a risk tier, a set of flags,
  an optional savings percentage and a list of human-readable messages.
- generate_followup_questions (lines 33-65): maps a classification result
  to a list of follow-up questions.

The web variant src/financial_ai_agent_v2/app.py carries one extra field,
a timestamp taken at evaluation time; it is embedded as analyze_budget_v2
with the timestamp passed explicitly, so that independence of the
classification fields from the timestamp is a provable statement.

Monetary amounts are modeled as exact rationals (the spec asks for a
stable decimal type).  Python round(x, 2) rounds half to even (bankers
rounding); round2 below models that on rationals.
-/

/-- Result record built by analyze_budget in src/Financial_AI_Agent_LLM.py
(the dict created at lines 70-79).  The set of flag strings is modeled as
a list (each branch adds at most one flag, so order and multiplicity are
immaterial). -/
structure BudgetResult where
  income : ℚ
  fixed : ℚ
  goal : ℚ
  remaining : ℚ
  risk : Option String
  ratio : Option ℚ
  messages : List String
  flags : List String
deriving DecidableEq, Repr

/-- Round a rational to the nearest integer, ties to even, as the Python
built-in round does on exact decimal values. -/
def roundHalfEven (x : ℚ) : ℤ :=
  if x - (⌊x⌋ : ℚ) < 1 / 2 then ⌊x⌋
  else if x - (⌊x⌋ : ℚ) > 1 / 2 then ⌊x⌋ + 1
  else if ⌊x⌋ % 2 = 0 then ⌊x⌋ else ⌊x⌋ + 1

/-- Python round(x, 2): round to two decimal places, ties to even. -/
def round2 (x : ℚ) : ℚ :=
  ((roundHalfEven (x * 100) : ℚ)) / 100

/-- Rendering of the formatted ratio message of line 116 of
src/Financial_AI_Agent_LLM.py. -/
def ratioMsg (q : ℚ) : String :=
  "Recommended saving ratio: " ++ toString q ++ "%"

/-- Embedding of analyze_budget (src/Financial_AI_Agent_LLM.py lines
68-124).  Each early return of the Python function is one branch of the
nested if; remaining = income - fixed_expenses is inlined. -/
def analyze_budget (income fixed_expenses saving_goal : ℚ) : BudgetResult :=
  if income ≤ 0 then
    { income := income, fixed := fixed_expenses, goal := saving_goal,
      remaining := income - fixed_expenses, risk := none, ratio := none,
      messages := ["Income must be greater than 0."],
      flags := ["invalid_income"] }
  else if saving_goal ≤ 0 then
    { income := income, fixed := fixed_expenses, goal := saving_goal,
      remaining := income - fixed_expenses, risk := none, ratio := none,
      messages := ["Saving goal is 0. You may want to set a small goal to start."],
      flags := ["zero_goal"] }
  else if income - fixed_expenses ≤ 0 then
    { income := income, fixed := fixed_expenses, goal := saving_goal,
      remaining := income - fixed_expenses, risk := some "High", ratio := none,
      messages := ["Warning: Your expenses exceed your income."],
      flags := ["negative_remaining"] }
  else if saving_goal > income then
    { income := income, fixed := fixed_expenses, goal := saving_goal,
      remaining := income - fixed_expenses, risk := some "High", ratio := none,
      messages := ["Your saving goal is unrealistic (greater than income)."],
      flags := ["unrealistic_goal"] }
  else if saving_goal > income - fixed_expenses then
    { income := income, fixed := fixed_expenses, goal := saving_goal,
      remaining := income - fixed_expenses, risk := some "Medium",
      ratio := some (round2 (saving_goal / income * 100)),
      messages := ["Your saving goal is too high based on current expenses.",
        ratioMsg (round2 (saving_goal / income * 100)),
        "Suggestions:",
        "- Keep savings between 20% and 40% of income (if possible).",
        "- Reduce non-essential spending if needed.",
        "- Build an emergency fund (3–6 months)."],
      flags := ["goal_too_high"] }
  else
    { income := income, fixed := fixed_expenses, goal := saving_goal,
      remaining := income - fixed_expenses, risk := some "Low",
      ratio := some (round2 (saving_goal / income * 100)),
      messages := ["Your saving goal is achievable.",
        ratioMsg (round2 (saving_goal / income * 100)),
        "Suggestions:",
        "- Keep savings between 20% and 40% of income (if possible).",
        "- Reduce non-essential spending if needed.",
        "- Build an emergency fund (3–6 months)."],
      flags := [] }

/-- Embedding of generate_followup_questions
(src/Financial_AI_Agent_LLM.py lines 33-65). -/
def generate_followup_questions (result : BudgetResult) : List String :=
  if "zero_goal" ∈ result.flags then
    ["Do you want help setting a realistic monthly saving goal?",
     "Do you want a simple plan to start saving (e.g., $50/week)?"]
  else if "negative_remaining" ∈ result.flags then
    ["Which fixed expense is the biggest (rent, car, food, etc.)?",
     "Do you want me to suggest a target expense limit based on your income?",
     "Do you have any side income you can add?"]
  else if "unrealistic_goal" ∈ result.flags ∨ "goal_too_high" ∈ result.flags then
    ["Do you want to cut expenses or increase income to reach this goal?",
     "What is your rent/housing cost? (This usually matters most.)",
     "Should I suggest a revised saving goal based on your current numbers?"]
  else if result.risk = some "Low" then
    ["Do you want a 30-day action plan to reach your goal?",
     "Do you want to split your budget into categories (50/30/20 or custom)?",
     "Do you want to estimate how long it takes to build a 3–6 month emergency fund?"]
  else
    ["Do you want to run another scenario with different numbers?"]

/-- Result record built by analyze_budget in
src/financial_ai_agent_v2/app.py (lines 135-146): the same fields plus a
timestamp taken at evaluation time. -/
structure BudgetResultV2 where
  income : ℚ
  fixed : ℚ
  goal : ℚ
  remaining : ℚ
  risk : Option String
  ratio : Option ℚ
  messages : List String
  flags : List String
  timestamp : String
deriving DecidableEq, Repr

/-- Rendering of the formatted ratio message of the app.py variant. -/
def ratioMsgV2 (q : ℚ) : String :=
  "📊 Recommended saving ratio: " ++ toString q ++ "%"

/-- Embedding of analyze_budget from src/financial_ai_agent_v2/app.py
(lines 132-189).  The call to datetime.now() is made explicit: the
timestamp value is passed in as the first argument and stored verbatim in
the result, exactly as the stateful code stores the clock reading. -/
def analyze_budget_v2 (ts : String) (income fixed_expenses saving_goal : ℚ) :
    BudgetResultV2 :=
  if income ≤ 0 then
    { income := income, fixed := fixed_expenses, goal := saving_goal,
      remaining := income - fixed_expenses, risk := none, ratio := none,
      messages := ["Income must be greater than 0."],
      flags := ["invalid_income"], timestamp := ts }
  else if saving_goal ≤ 0 then
    { income := income, fixed := fixed_expenses, goal := saving_goal,
      remaining := income - fixed_expenses, risk := none, ratio := none,
      messages := ["Saving goal is 0. You may want to set a small goal to start."],
      flags := ["zero_goal"], timestamp := ts }
  else if income - fixed_expenses ≤ 0 then
    { income := income, fixed := fixed_expenses, goal := saving_goal,
      remaining := income - fixed_expenses, risk := some "High", ratio := none,
      messages := ["⚠️ Warning: Your expenses exceed your income."],
      flags := ["negative_remaining"], timestamp := ts }
  else if saving_goal > income then
    { income := income, fixed := fixed_expenses, goal := saving_goal,
      remaining := income - fixed_expenses, risk := some "High", ratio := none,
      messages := ["⚠️ Your saving goal is unrealistic (greater than income)."],
      flags := ["unrealistic_goal"], timestamp := ts }
  else if saving_goal > income - fixed_expenses then
    { income := income, fixed := fixed_expenses, goal := saving_goal,
      remaining := income - fixed_expenses, risk := some "Medium",
      ratio := some (round2 (saving_goal / income * 100)),
      messages := ["⚠️ Your saving goal is too high based on current expenses.",
        ratioMsgV2 (round2 (saving_goal / income * 100)),
        "💡 Suggestions:",
        "  • Keep savings between 20% and 40% of income",
        "  • Reduce non-essential spending if needed",
        "  • Build an emergency fund (3–6 months)"],
      flags := ["goal_too_high"], timestamp := ts }
  else
    { income := income, fixed := fixed_expenses, goal := saving_goal,
      remaining := income - fixed_expenses, risk := some "Low",
      ratio := some (round2 (saving_goal / income * 100)),
      messages := ["✅ Your saving goal is achievable.",
        ratioMsgV2 (round2 (saving_goal / income * 100)),
        "💡 Suggestions:",
        "  • Keep savings between 20% and 40% of income",
        "  • Reduce non-essential spending if needed",
        "  • Build an emergency fund (3–6 months)"],
      flags := [] , timestamp := ts }

/-- The classification fields of a v2 result: everything except the
timestamp. -/
def classificationFields (r : BudgetResultV2) :
    ℚ × ℚ × ℚ × ℚ × Option String × Option ℚ × List String × List String :=
  (r.income, r.fixed, r.goal, r.remaining, r.risk, BudgetResultV2.ratio r,
   r.messages, r.flags)

/-- Every branch of generate_followup_questions returns a nonempty list;
in particular the final default branch does. -/
theorem followup_ne_nil (r : BudgetResult) :
    generate_followup_questions r ≠ [] := by
  unfold generate_followup_questions
  split_ifs <;> simp

/-- C3: for every input triple with income ≤ 0, analyze_budget returns a
result whose only flag is invalid_income, whose only message is the
income-must-be-positive message, with risk unset and no savings
percentage; the branch is terminal, so nothing else is produced. -/
theorem budget_invalid_income (i f g : ℚ) (h : i ≤ 0) :
    analyze_budget i f g =
      { income := i, fixed := f, goal := g, remaining := i - f,
        risk := none, ratio := none,
        messages := ["Income must be greater than 0."],
        flags := ["invalid_income"] } := by
  unfold analyze_budget
  rw [if_pos h]

/-- Witness for budget_invalid_income at the spec scenario
income 0, fixed 0, goal 100. -/
theorem budget_invalid_income_witness :
    (0:ℚ) ≤ 0 ∧
    analyze_budget 0 0 100 =
      { income := 0, fixed := 0, goal := 100, remaining := 0 - 0,
        risk := none, ratio := none,
        messages := ["Income must be greater than 0."],
        flags := ["invalid_income"] } :=
  ⟨by norm_num, budget_invalid_income 0 0 100 (by norm_num)⟩

/-- C4: for every input triple with income > 0 and saving_goal ≤ 0,
analyze_budget returns a result whose only flag is zero_goal, whose only
message suggests setting a small goal instead, with risk unset and no
savings percentage; the branch is terminal. -/
theorem budget_zero_goal (i f g : ℚ) (hi : 0 < i) (hg : g ≤ 0) :
    analyze_budget i f g =
      { income := i, fixed := f, goal := g, remaining := i - f,
        risk := none, ratio := none,
        messages := ["Saving goal is 0. You may want to set a small goal to start."],
        flags := ["zero_goal"] } := by
  unfold analyze_budget
  rw [if_neg (not_le.mpr hi), if_pos hg]

/-- Witness for budget_zero_goal at the spec scenario
income 4000, fixed 1000, goal 0. -/
theorem budget_zero_goal_witness :
    (0:ℚ) < 4000 ∧ (0:ℚ) ≤ 0 ∧
    analyze_budget 4000 1000 0 =
      { income := 4000, fixed := 1000, goal := 0, remaining := 4000 - 1000,
        risk := none, ratio := none,
        messages := ["Saving goal is 0. You may want to set a small goal to start."],
        flags := ["zero_goal"] } :=
  ⟨by norm_num, by norm_num, budget_zero_goal 4000 1000 0 (by norm_num) (by norm_num)⟩

/-- C5: for every input triple with income > 0, saving_goal > 0 and
fixed_expenses ≥ income (so remaining ≤ 0), analyze_budget returns risk
High with negative_remaining as its only flag, no savings percentage and
only the warning message; the branch is terminal and takes precedence
over the unrealistic_goal check. -/
theorem budget_negative_remaining (i f g : ℚ) (hi : 0 < i) (hg : 0 < g)
    (hf : i ≤ f) :
    analyze_budget i f g =
      { income := i, fixed := f, goal := g, remaining := i - f,
        risk := some "High", ratio := none,
        messages := ["Warning: Your expenses exceed your income."],
        flags := ["negative_remaining"] } := by
  unfold analyze_budget
  rw [if_neg (not_le.mpr hi), if_neg (not_le.mpr hg),
    if_pos (show i - f ≤ 0 by linarith)]

/-- Witness for budget_negative_remaining at income 100, fixed 200,
goal 500: the goal also exceeds income, yet only negative_remaining is
flagged, exhibiting the precedence stated in C5. -/
theorem budget_negative_remaining_witness :
    (0:ℚ) < 100 ∧ (0:ℚ) < 500 ∧ (100:ℚ) ≤ 200 ∧
    analyze_budget 100 200 500 =
      { income := 100, fixed := 200, goal := 500, remaining := 100 - 200,
        risk := some "High", ratio := none,
        messages := ["Warning: Your expenses exceed your income."],
        flags := ["negative_remaining"] } :=
  ⟨by norm_num, by norm_num, by norm_num,
   budget_negative_remaining 100 200 500 (by norm_num) (by norm_num) (by norm_num)⟩

/-- C6: for every input triple with income > 0, saving_goal > 0,
fixed_expenses < income and saving_goal > income, analyze_budget returns
risk High with unrealistic_goal as its only flag, only the
goal-exceeds-income message and no savings percentage; the branch is
terminal. -/
theorem budget_unrealistic_goal (i f g : ℚ) (hi : 0 < i) (hg : 0 < g)
    (hfi : f < i) (hgi : i < g) :
    analyze_budget i f g =
      { income := i, fixed := f, goal := g, remaining := i - f,
        risk := some "High", ratio := none,
        messages := ["Your saving goal is unrealistic (greater than income)."],
        flags := ["unrealistic_goal"] } := by
  unfold analyze_budget
  rw [if_neg (not_le.mpr hi), if_neg (not_le.mpr hg),
    if_neg (not_le.mpr (show (0:ℚ) < i - f by linarith)), if_pos hgi]

/-- Witness for budget_unrealistic_goal at the spec scenario
income 2000, fixed 500, goal 2500. -/
theorem budget_unrealistic_goal_witness :
    (0:ℚ) < 2000 ∧ (0:ℚ) < 2500 ∧ (500:ℚ) < 2000 ∧ (2000:ℚ) < 2500 ∧
    analyze_budget 2000 500 2500 =
      { income := 2000, fixed := 500, goal := 2500, remaining := 2000 - 500,
        risk := some "High", ratio := none,
        messages := ["Your saving goal is unrealistic (greater than income)."],
        flags := ["unrealistic_goal"] } :=
  ⟨by norm_num, by norm_num, by norm_num, by norm_num,
   budget_unrealistic_goal 2000 500 2500 (by norm_num) (by norm_num)
     (by norm_num) (by norm_num)⟩

/-- C1 counterexample: with income 10, fixed_expenses -100, saving_goal
50, every hypothesis listed in C1 holds (income > 0, saving_goal > 0,
fixed_expenses < income, 0 < saving_goal ≤ remaining = 110), yet
analyze_budget classifies High with flag unrealistic_goal and no savings
percentage, because saving_goal exceeds income; so C1 as stated is false. -/
theorem budget_low_strict_counterexample :
    (0:ℚ) < 10 ∧ (0:ℚ) < 50 ∧ (-100:ℚ) < 10 ∧ (50:ℚ) ≤ 10 - (-100) ∧
    ¬ ((analyze_budget 10 (-100) 50).risk = some "Low" ∧
       (analyze_budget 10 (-100) 50).flags = []) ∧
    (analyze_budget 10 (-100) 50).risk = some "High" ∧
    (analyze_budget 10 (-100) 50).flags = ["unrealistic_goal"] := by
  have h : analyze_budget 10 (-100) 50 =
      { income := 10, fixed := -100, goal := 50, remaining := 10 - (-100),
        risk := some "High", ratio := none,
        messages := ["Your saving goal is unrealistic (greater than income)."],
        flags := ["unrealistic_goal"] } := by
    unfold analyze_budget
    rw [if_neg (by norm_num), if_neg (by norm_num), if_neg (by norm_num),
      if_pos (by norm_num)]
  refine ⟨by norm_num, by norm_num, by norm_num, by norm_num, ?_, ?_, ?_⟩
  · rw [h]; decide
  · rw [h]
  · rw [h]

/-- C1 (amended with fixed_expenses ≥ 0, the non-negativity the
InputCollector contract guarantees): for every input triple with
income > 0, saving_goal > 0, 0 ≤ fixed_expenses < income and
0 < saving_goal ≤ remaining, analyze_budget returns risk Low, an empty
flag set and the savings percentage round2 of saving_goal / income * 100;
the boundary case saving_goal = remaining classifies Low because the
goal-too-high check uses strict >. -/
theorem budget_low_classification (i f g : ℚ) (hi : 0 < i) (hg : 0 < g)
    (hf : 0 ≤ f) (hfi : f < i) (hgr : g ≤ i - f) :
    (analyze_budget i f g).risk = some "Low" ∧
    (analyze_budget i f g).flags = [] ∧
    BudgetResult.ratio (analyze_budget i f g) = some (round2 (g / i * 100)) := by
  unfold analyze_budget
  rw [if_neg (not_le.mpr hi), if_neg (not_le.mpr hg),
    if_neg (not_le.mpr (show (0:ℚ) < i - f by linarith)),
    if_neg (not_lt.mpr (show g ≤ i by linarith)),
    if_neg (not_lt.mpr hgr)]
  exact ⟨rfl, rfl, rfl⟩

/-- Witness for budget_low_classification at income 5000, fixed 3000,
goal 2000, the boundary case saving_goal = remaining. -/
theorem budget_low_classification_witness :
    (0:ℚ) < 5000 ∧ (0:ℚ) < 2000 ∧ (0:ℚ) ≤ 3000 ∧ (3000:ℚ) < 5000 ∧
    (2000:ℚ) ≤ 5000 - 3000 ∧
    ((analyze_budget 5000 3000 2000).risk = some "Low" ∧
     (analyze_budget 5000 3000 2000).flags = [] ∧
     BudgetResult.ratio (analyze_budget 5000 3000 2000) =
       some (round2 (2000 / 5000 * 100))) :=
  ⟨by norm_num, by norm_num, by norm_num, by norm_num, by norm_num,
   budget_low_classification 5000 3000 2000 (by norm_num) (by norm_num)
     (by norm_num) (by norm_num) (by norm_num)⟩

/-- C2: for every input triple with income > 0, saving_goal > 0,
fixed_expenses < income, saving_goal ≤ income and saving_goal >
remaining, analyze_budget returns risk Medium with goal_too_high as its
only flag, a present savings percentage computed by the same formula as
the Low branch, and a message list that continues past the warning with
the ratio message and the three generic suggestion lines (the branch is
not terminal). -/
theorem budget_medium_classification (i f g : ℚ) (hi : 0 < i) (hg : 0 < g)
    (hfi : f < i) (hgi : g ≤ i) (hgr : i - f < g) :
    (analyze_budget i f g).risk = some "Medium" ∧
    (analyze_budget i f g).flags = ["goal_too_high"] ∧
    BudgetResult.ratio (analyze_budget i f g) = some (round2 (g / i * 100)) ∧
    (analyze_budget i f g).messages =
      ["Your saving goal is too high based on current expenses.",
       ratioMsg (round2 (g / i * 100)),
       "Suggestions:",
       "- Keep savings between 20% and 40% of income (if possible).",
       "- Reduce non-essential spending if needed.",
       "- Build an emergency fund (3–6 months)."] := by
  unfold analyze_budget
  rw [if_neg (not_le.mpr hi), if_neg (not_le.mpr hg),
    if_neg (not_le.mpr (show (0:ℚ) < i - f by linarith)),
    if_neg (not_lt.mpr hgi), if_pos hgr]
  exact ⟨rfl, rfl, rfl, rfl⟩

/-- Witness for budget_medium_classification at the spec scenario
income 5000, fixed 3000, goal 2500. -/
theorem budget_medium_classification_witness :
    (0:ℚ) < 5000 ∧ (0:ℚ) < 2500 ∧ (3000:ℚ) < 5000 ∧ (2500:ℚ) ≤ 5000 ∧
    (5000:ℚ) - 3000 < 2500 ∧
    ((analyze_budget 5000 3000 2500).risk = some "Medium" ∧
     (analyze_budget 5000 3000 2500).flags = ["goal_too_high"] ∧
     BudgetResult.ratio (analyze_budget 5000 3000 2500) =
       some (round2 (2500 / 5000 * 100)) ∧
     (analyze_budget 5000 3000 2500).messages =
       ["Your saving goal is too high based on current expenses.",
        ratioMsg (round2 (2500 / 5000 * 100)),
        "Suggestions:",
        "- Keep savings between 20% and 40% of income (if possible).",
        "- Reduce non-essential spending if needed.",
        "- Build an emergency fund (3–6 months)."]) :=
  ⟨by norm_num, by norm_num, by norm_num, by norm_num, by norm_num,
   budget_medium_classification 5000 3000 2500 (by norm_num) (by norm_num)
     (by norm_num) (by norm_num) (by norm_num)⟩

/-- C7: analyze_budget is total and never fails: on every rational triple
(zero and negative values included) it yields a defined result carrying
at least one explanatory message; and the savings percentage (the only
place the expression saving_goal / income occurs) is computed only when
income > 0, because the income ≤ 0 branch returns first, so the division
is never reached with income = 0. -/
theorem budget_total_and_guarded (i f g : ℚ) :
    (analyze_budget i f g).messages ≠ [] ∧
    (BudgetResult.ratio (analyze_budget i f g) ≠ none → 0 < i) := by
  unfold analyze_budget
  split_ifs with h1 h2 h3 h4 h5 <;>
    exact ⟨by simp, fun hr => by first | exact absurd rfl hr | linarith⟩

/-- Witness for budget_total_and_guarded at income 5000, fixed 3000,
goal 1000, where the savings percentage is present. -/
theorem budget_total_and_guarded_witness :
    (analyze_budget 5000 3000 1000).messages ≠ [] ∧ (0:ℚ) < 5000 :=
  ⟨(budget_total_and_guarded 5000 3000 1000).1,
   (budget_total_and_guarded 5000 3000 1000).2
     (by norm_num [analyze_budget]; exact Option.some_ne_none _)⟩

/-- C8: analyze_budget is deterministic: identical inputs give identical
results; and in the app.py variant, which also stores a clock reading,
none of the classification fields (income, fixed, goal, remaining, risk,
ratio, messages, flags) depends on the timestamp. -/
theorem budget_deterministic (i f g : ℚ) (t1 t2 : String) :
    analyze_budget i f g = analyze_budget i f g ∧
    classificationFields (analyze_budget_v2 t1 i f g) =
      classificationFields (analyze_budget_v2 t2 i f g) := by
  refine ⟨rfl, ?_⟩
  unfold analyze_budget_v2 classificationFields
  split_ifs <;> rfl

/-- C9: for every input triple, the result of analyze_budget carries at
most one flag; the flag set is empty exactly when risk is Low; and the
savings percentage is present exactly when risk is Low or Medium. -/
theorem budget_flags_risk_invariant (i f g : ℚ) :
    (analyze_budget i f g).flags.length ≤ 1 ∧
    ((analyze_budget i f g).flags = [] ↔
      (analyze_budget i f g).risk = some "Low") ∧
    (BudgetResult.ratio (analyze_budget i f g) ≠ none ↔
      ((analyze_budget i f g).risk = some "Low" ∨
       (analyze_budget i f g).risk = some "Medium")) := by
  unfold analyze_budget
  split_ifs <;> simp

/-- C10: generate_followup_questions is total over classifier results and
never returns an empty list: every result of analyze_budget, the
invalid_income and zero_goal results with risk unset included, yields at
least one follow-up question, since the final branch supplies a default
question when no flag- or risk-specific branch matches. -/
theorem budget_followups_nonempty (i f g : ℚ) :
    generate_followup_questions (analyze_budget i f g) ≠ [] :=
  followup_ne_nil (analyze_budget i f g)
